import Mathlib

/-!
Verification of the itau-cli harvesting and normalization engine
(`src/client.py`) against its specification.

The Python code is shallowly embedded: pure fragments become Lean
functions; network calls are represented by explicit parameters holding
the outcome of the call (an `Option`/`Except` value, `none`/`error`
standing for a raised exception); the `while` loop that plans months is
embedded with an explicit fuel argument large enough to cover every
iteration the Python loop performs.
-/

namespace Itau

/-- Calendar date, as in Python `datetime.date`: a valid date has
`1 ≤ month ≤ 12` and `1 ≤ day ≤ daysInMonth year month`. -/
structure Date where
  year : Nat
  month : Nat
  day : Nat
deriving DecidableEq, Repr

/-- Python date comparison `a < b` (lexicographic on year, month, day). -/
def Date.ltb (a b : Date) : Bool :=
  if a.year < b.year then true
  else if b.year < a.year then false
  else if a.month < b.month then true
  else if b.month < a.month then false
  else decide (a.day < b.day)

/-- Gregorian leap-year test, as used by Python `calendar.monthrange`. -/
def isLeap (y : Nat) : Bool :=
  (y % 4 == 0 && y % 100 != 0) || y % 400 == 0

/-- Number of days of month `m` of year `y` (Python `calendar.monthrange`). -/
def daysInMonth (y m : Nat) : Nat :=
  if m = 2 then (if isLeap y then 29 else 28)
  else if m = 4 ∨ m = 6 ∨ m = 9 ∨ m = 11 then 30
  else 31

/-- Subtraction of one calendar month, as `dateutil.relativedelta(months=1)`
does it: decrement the month (borrowing from the year), then clamp the day
to the length of the resulting month. -/
def subMonth (d : Date) : Date :=
  if d.month = 1 then
    { year := d.year - 1, month := 12, day := min d.day (daysInMonth (d.year - 1) 12) }
  else
    { year := d.year, month := d.month - 1, day := min d.day (daysInMonth d.year (d.month - 1)) }

/-- Linear index of a calendar month; for a valid date (`1 ≤ month ≤ 12`)
it determines `(year, month)` uniquely. -/
def monthIndex (d : Date) : Nat := 12 * d.year + d.month

/-- Fuel-indexed embedding of the month-planning `while` loop shared by
`account_detail` and `get_credit_cards`:
`while today > from_date: emit (today.year, today.month); today -= relativedelta(months=1)`.
The fuel only bounds the iteration count; `plan_months` supplies enough
fuel that it is never exhausted on valid dates. -/
def planMonthsAux : Nat → Date → Date → List (Nat × Nat)
  | 0, _, _ => []
  | fuel + 1, today, fromDate =>
    if Date.ltb fromDate today then
      (today.year, today.month) :: planMonthsAux fuel (subMonth today) fromDate
    else []

/-- Month sequence the fetch loop plans, most recent month first. -/
def plan_months (fromDate today : Date) : List (Nat × Nat) :=
  planMonthsAux (monthIndex today + 1) today fromDate

/-- Inverse of `monthIndex`: the (year, month) pair whose linear index is `i`. -/
def pairAt (i : Nat) : Nat × Nat := ((i - 1) / 12, (i - 1) % 12 + 1)

theorem daysInMonth_ge (y m : Nat) : 28 ≤ daysInMonth y m := by
  unfold daysInMonth
  split
  · split <;> omega
  · split <;> omega

theorem subMonth_month_lb (d : Date) (h1 : 1 ≤ d.month) : 1 ≤ (subMonth d).month := by
  unfold subMonth; split <;> simp <;> omega

theorem subMonth_month_ub (d : Date) (h1 : 1 ≤ d.month) (h2 : d.month ≤ 12) :
    (subMonth d).month ≤ 12 := by
  unfold subMonth; split <;> simp <;> omega

theorem subMonth_day_ge (d : Date) (h : 2 ≤ d.day) : 2 ≤ (subMonth d).day := by
  have h12 := daysInMonth_ge (d.year - 1) 12
  have hm := daysInMonth_ge d.year (d.month - 1)
  unfold subMonth; split <;> simp <;> omega

theorem monthIndex_subMonth (d : Date) (h1 : 1 ≤ d.month) (h2 : d.month ≤ 12)
    (h13 : 13 ≤ monthIndex d) : monthIndex (subMonth d) = monthIndex d - 1 := by
  unfold subMonth monthIndex at *
  split <;> simp <;> omega

theorem ltb_iff_monthIndex (f t : Date)
    (hf1 : 1 ≤ f.month) (hf2 : f.month ≤ 12) (ht1 : 1 ≤ t.month) (ht2 : t.month ≤ 12)
    (hfd : f.day = 1) (htd : 2 ≤ t.day) :
    Date.ltb f t = true ↔ monthIndex f ≤ monthIndex t := by
  unfold Date.ltb monthIndex
  split_ifs with h1 h2 h3 h4 <;> simp <;> omega

theorem pairAt_monthIndex (d : Date) (h1 : 1 ≤ d.month) (h2 : d.month ≤ 12) :
    pairAt (monthIndex d) = (d.year, d.month) := by
  unfold pairAt monthIndex
  have hy : (12 * d.year + d.month - 1) / 12 = d.year := by omega
  have hm : (12 * d.year + d.month - 1) % 12 + 1 = d.month := by omega
  rw [hy, hm]

theorem planMonthsAux_nil (fuel : Nat) (t f : Date) (h : Date.ltb f t = false) :
    planMonthsAux fuel t f = [] := by
  cases fuel with
  | zero => rfl
  | succ n => simp [planMonthsAux, h]

theorem planMonthsAux_eq (fromDate : Date)
    (hf1 : 1 ≤ fromDate.month) (hf2 : fromDate.month ≤ 12)
    (hfd : fromDate.day = 1) (hfy : 1 ≤ fromDate.year) :
    ∀ (n : Nat) (today : Date) (fuel : Nat),
      1 ≤ today.month → today.month ≤ 12 → 2 ≤ today.day →
      monthIndex today = monthIndex fromDate + n → n + 1 ≤ fuel →
      planMonthsAux fuel today fromDate =
        (List.range (n + 1)).map (fun k => pairAt (monthIndex today - k)) := by
  have hf13 : 13 ≤ monthIndex fromDate := by unfold monthIndex; omega
  intro n
  induction n with
  | zero =>
    intro today fuel ht1 ht2 htd hidx hfuel
    obtain ⟨fuel, rfl⟩ : ∃ m, fuel = m + 1 := ⟨fuel - 1, by omega⟩
    have hlt : Date.ltb fromDate today = true := by
      rw [ltb_iff_monthIndex fromDate today hf1 hf2 ht1 ht2 hfd htd]; omega
    have hsub13 : 13 ≤ monthIndex today := by omega
    have hrec : Date.ltb fromDate (subMonth today) = false := by
      have hi := monthIndex_subMonth today ht1 ht2 hsub13
      have := ltb_iff_monthIndex fromDate (subMonth today) hf1 hf2
        (subMonth_month_lb today ht1) (subMonth_month_ub today ht1 ht2) hfd
        (subMonth_day_ge today htd)
      rw [hi] at this
      rcases h : Date.ltb fromDate (subMonth today) with _ | _
      · rfl
      · exfalso
        rw [h] at this
        simp only [true_iff] at this
        omega
    simp [planMonthsAux, hlt, planMonthsAux_nil _ _ _ hrec, List.range_succ,
      pairAt_monthIndex today ht1 ht2]
  | succ n ih =>
    intro today fuel ht1 ht2 htd hidx hfuel
    obtain ⟨fuel, rfl⟩ : ∃ m, fuel = m + 1 := ⟨fuel - 1, by omega⟩
    have hlt : Date.ltb fromDate today = true := by
      rw [ltb_iff_monthIndex fromDate today hf1 hf2 ht1 ht2 hfd htd]; omega
    have hsub13 : 13 ≤ monthIndex today := by omega
    have hi := monthIndex_subMonth today ht1 ht2 hsub13
    have hidx2 : monthIndex (subMonth today) = monthIndex fromDate + n := by
      rw [hi]; omega
    have hfuel2 : n + 1 ≤ fuel := by omega
    have hrec := ih (subMonth today) fuel (subMonth_month_lb today ht1)
      (subMonth_month_ub today ht1 ht2) (subMonth_day_ge today htd)
      hidx2 hfuel2
    simp only [planMonthsAux, hlt, if_true]
    rw [List.range_succ_eq_map (n + 1), List.map_cons, List.map_map, hrec, hi]
    congr 1
    · rw [Nat.sub_zero]
      exact (pairAt_monthIndex today ht1 ht2).symm
    · apply List.map_congr_left
      intro k hk
      simp only [Function.comp]
      congr 1
      omega

/-- C1 (amended): provided the lower boundary is a first-of-month date and
the upper boundary's day is at least 2, the month-planning loop of
`account_detail` and `get_credit_cards` produces the strictly decreasing,
gap-free month sequence: its length is the month-difference plus 1, and its
k-th entry is the (year, month) pair exactly k calendar months before the
upper boundary's month, so it covers every month from the upper boundary's
month down to the lower boundary's month, stepping by one month. -/
theorem C1_plan_months (fromDate today : Date)
    (hf1 : 1 ≤ fromDate.month) (hf2 : fromDate.month ≤ 12)
    (hfd : fromDate.day = 1) (hfy : 1 ≤ fromDate.year)
    (ht1 : 1 ≤ today.month) (ht2 : today.month ≤ 12) (htd : 2 ≤ today.day)
    (hle : monthIndex fromDate ≤ monthIndex today) :
    (plan_months fromDate today).length = monthIndex today - monthIndex fromDate + 1 ∧
    ∀ k, k < monthIndex today - monthIndex fromDate + 1 →
      (plan_months fromDate today).getD k (0, 0) = pairAt (monthIndex today - k) := by
  have h := planMonthsAux_eq fromDate hf1 hf2 hfd hfy
    (monthIndex today - monthIndex fromDate) today (monthIndex today + 1)
    ht1 ht2 htd (by omega) (by omega)
  unfold plan_months
  rw [h]
  constructor
  · simp
  · intro k hk
    rw [List.getD_eq_getElem?_getD, List.getElem?_map, List.getElem?_range (by omega)]
    rfl

/-- C1 counterexample: with from_date = 2021-05-15 and today = 2021-07-15
(so from_date ≤ to_date) the loop plans only (2021,7) and (2021,6): the
month of May 2021 is not covered even though 2021-05-16 lies inside
(from_date, to_date], and the length is 2, not month-difference + 1 = 3.
The loop compares full dates, so the boundary month is dropped whenever
from_date's day is not below the clamped day of to_date. -/
theorem C1_counterexample :
    plan_months ⟨2021, 5, 15⟩ ⟨2021, 7, 15⟩ = [(2021, 7), (2021, 6)] ∧
    (plan_months ⟨2021, 5, 15⟩ ⟨2021, 7, 15⟩).length ≠
      monthIndex ⟨2021, 7, 15⟩ - monthIndex ⟨2021, 5, 15⟩ + 1 := by
  exact ⟨by decide, by decide⟩

/-- C1 witness: the amended theorem applied at from_date = 2021-05-01,
today = 2021-07-15, the configuration of the specification's own
end-to-end scenario (three months: (2021,7), (2021,6), (2021,5)). -/
theorem C1_witness :
    (plan_months ⟨2021, 5, 1⟩ ⟨2021, 7, 15⟩).length =
      monthIndex ⟨2021, 7, 15⟩ - monthIndex ⟨2021, 5, 1⟩ + 1 ∧
    ∀ k, k < monthIndex ⟨2021, 7, 15⟩ - monthIndex ⟨2021, 5, 1⟩ + 1 →
      (plan_months ⟨2021, 5, 1⟩ ⟨2021, 7, 15⟩).getD k (0, 0) =
        pairAt (monthIndex ⟨2021, 7, 15⟩ - k) :=
  C1_plan_months ⟨2021, 5, 1⟩ ⟨2021, 7, 15⟩ (by decide) (by decide) (by decide)
    (by decide) (by decide) (by decide) (by decide) (by decide)

/-- Accumulating pass over the characters that collects maximal runs of
non-whitespace characters. -/
def wordsAux : List Char → List Char → List String
  | [], acc => if acc.isEmpty then [] else [String.mk acc.reverse]
  | c :: cs, acc =>
    if c.isWhitespace then
      if acc.isEmpty then wordsAux cs []
      else String.mk acc.reverse :: wordsAux cs []
    else wordsAux cs (c :: acc)

/-- Whitespace-delimited words of a string, as Python `s.split()` returns
them (runs of whitespace separate words, empty words are dropped). -/
def pyWords (s : String) : List String := wordsAux s.toList []

/-- Python `s.startswith(pre)`, computed on the character lists. -/
def startsWithB (s pre : String) : Bool := pre.toList.isPrefixOf s.toList

/-- Python `s.lower()`, computed on the character list. -/
def pyLower (s : String) : String := String.mk (s.toList.map Char.toLower)

/-- Python `s.strip()`: remove leading and trailing whitespace. -/
def pyStrip (s : String) : String :=
  String.mk (((s.toList.dropWhile Char.isWhitespace).reverse.dropWhile
    Char.isWhitespace).reverse)

/-- Embedding of `" ".flatten(s.split())`: collapse every whitespace run to a
single space and strip the ends. -/
def cleanWS (s : String) : String := String.intercalate " " (pyWords s)

/-- Substring containment on character lists (Python `pat in s`). -/
def isInfixB : List Char → List Char → Bool
  | pat, [] => pat.isEmpty
  | pat, c :: rest => pat.isPrefixOf (c :: rest) || isInfixB pat rest

/-- Python `pat in s` for strings. -/
def containsSub (s pat : String) : Bool := isInfixB pat.toList s.toList

/-- Embedding of `only_num`: `re.sub("[^0-9]", "", txt)` keeps exactly the
decimal digit characters of `txt`. -/
def only_num (txt : String) : String := String.mk (txt.toList.filter Char.isDigit)

/-- Raw JSON date object with Joda-style field names, as consumed by
`parse_date`. -/
structure RawDate where
  year : Nat
  monthOfYear : Nat
  dayOfMonth : Nat
deriving DecidableEq, Repr

/-- Embedding of `parse_date`. -/
def parse_date (d : RawDate) : Date :=
  { year := d.year, month := d.monthOfYear, day := d.dayOfMonth }

/-- Transaction type: the only two values `parse_transaction` produces. -/
inductive TxType where
  | debit
  | credit
deriving DecidableEq, Repr

/-- Meta dictionary of a Transaction: each key of the Python dict becomes
an optional field, `none` meaning the key is absent. -/
structure Meta where
  beneficiary : Option String := none
  debit_card_purchase : Option Bool := none
  atm : Option Bool := none
  bank_costs : Option Bool := none
  bank_transfer : Option Bool := none
  bank_transfer_from : Option String := none
  bank_transfer_to : Option String := none
  tax_return : Option Bool := none
deriving DecidableEq, Repr

/-- Canonical account transaction record built by `parse_transaction`. -/
structure Transaction where
  description : String
  additional_description : String
  ty : TxType
  amount : ℚ
  balance : ℚ
  date : Date
  meta : Meta
deriving DecidableEq, Repr

/-- Raw account movement JSON object, with the upstream field names. -/
structure RawTx where
  tipo : String
  descripcion : String
  descripcionAdicional : String
  importe : ℚ
  saldo : ℚ
  fecha : RawDate
deriving DecidableEq, Repr

/-- First whitespace-delimited token of a string, as characters. -/
def firstTok (s : String) : List Char :=
  (s.toList.dropWhile Char.isWhitespace).takeWhile (fun c => !c.isWhitespace)

/-- What remains of a string after its first whitespace-delimited token and
the whitespace that follows it. -/
def restAfterTok (s : String) : List Char :=
  ((s.toList.dropWhile Char.isWhitespace).dropWhile
    (fun c => !c.isWhitespace)).dropWhile Char.isWhitespace

/-- Python `s.split(None, 1)`: at most one split on a whitespace run; an
empty or all-whitespace string gives the empty list, a single-token string
gives a one-element list. -/
def pySplitNone1 (s : String) : List String :=
  if firstTok s = [] then []
  else if restAfterTok s = [] then [String.mk (firstTok s)]
  else [String.mk (firstTok s), String.mk (restAfterTok s)]

/-- Embedding of `parse_transaction_details`, applied to the
`form.beneficiario` string of the detail payload: the Python code takes
element [-1] of `beneficiario.split(None, 1)`; `none` models the
IndexError that [-1] raises on the empty list. -/
def parse_transaction_details (beneficiario : String) : Option String :=
  (pySplitNone1 beneficiario).getLast?

/-- Modelled from the spec: the value the specification says the detail
parser returns, namely the beneficiary string with its first
whitespace-delimited token (a prefix code) stripped off. -/
def spec_beneficiary_stripped (s : String) : String := String.mk (restAfterTok s)

/-- Embedding of `get_transaction_details`. The parameter is the outcome
of the network fetch of the transaction-detail endpoint (`none` when the
request or JSON decoding raised); any exception inside the try block,
including the IndexError of `parse_transaction_details`, is caught and
resolved to the empty string. -/
def get_transaction_details (fetched : Option String) : String :=
  match fetched with
  | none => ""
  | some beneficiario => (parse_transaction_details beneficiario).getD ""

/-- Classification rule: a description containing "DEB. CAMBIOSS" gets the
beneficiary resolved through the synchronous detail fetch. -/
def ruleBeneficiary (fetched : Option String) (tx : Transaction) : Transaction :=
  if containsSub tx.description "DEB. CAMBIOSS" then
    { tx with meta := { tx.meta with beneficiary := some (get_transaction_details fetched) } }
  else tx

/-- Classification rule: descriptions starting with "COMPRA " are debit
card purchases. -/
def ruleCompra (tx : Transaction) : Transaction :=
  if startsWithB tx.description "COMPRA " then
    { tx with meta := { tx.meta with debit_card_purchase := some true } }
  else tx

/-- Classification rule: descriptions starting with "RETIRO " are ATM
withdrawals; the description is rewritten to the fixed literal. -/
def ruleRetiro (tx : Transaction) : Transaction :=
  if startsWithB tx.description "RETIRO " then
    { tx with description := "RETIRO BANRED", meta := { tx.meta with atm := some true } }
  else tx

/-- Classification rule: descriptions starting with "DEBITO BANKING CARD"
are bank costs. -/
def ruleBankingCard (tx : Transaction) : Transaction :=
  if startsWithB tx.description "DEBITO BANKING CARD" then
    { tx with meta := { tx.meta with bank_costs := some true } }
  else tx

/-- Classification rule: descriptions starting with "TRASPASO DE" are
incoming transfers; the digits of the description give the source. -/
def ruleTraspasoDe (tx : Transaction) : Transaction :=
  if startsWithB tx.description "TRASPASO DE" then
    { tx with meta := { tx.meta with bank_transfer := some true, bank_transfer_from := some (only_num tx.description) } }
  else tx

/-- Classification rule: descriptions starting with "TRASPASO A" are
outgoing transfers; the digits of the description give the target. -/
def ruleTraspasoA (tx : Transaction) : Transaction :=
  if startsWithB tx.description "TRASPASO A" then
    { tx with meta := { tx.meta with bank_transfer := some true, bank_transfer_to := some (only_num tx.description) } }
  else tx

/-- Classification rule: descriptions starting with "REDIVA 1921" are tax
returns. -/
def ruleRediva (tx : Transaction) : Transaction :=
  if startsWithB tx.description "REDIVA 1921" then
    { tx with meta := { tx.meta with tax_return := some true } }
  else tx

/-- Classification pipeline of `parse_transaction`: the seven rules in
source order, innermost applied first. The `fetched` parameter carries
the outcome of the network call of `get_transaction_details`, performed
when the description contains "DEB. CAMBIOSS". -/
def applyRules (fetched : Option String) (tx : Transaction) : Transaction :=
  ruleRediva (ruleTraspasoA (ruleTraspasoDe (ruleBankingCard (ruleRetiro
    (ruleCompra (ruleBeneficiary fetched tx))))))

/-- Embedding of `parse_transaction`: classify the tipo (anything outside
"D"/"C" is logged and dropped, giving `none`), clean the descriptions,
copy amount/balance/date, then run the classification rules in source
order. -/
def parse_transaction (fetched : Option String) (raw : RawTx) : Option Transaction :=
  if raw.tipo = "D" ∨ raw.tipo = "C" then
    some (applyRules fetched
        { description := cleanWS raw.descripcion
          additional_description := cleanWS raw.descripcionAdicional
          ty := if raw.tipo = "D" then TxType.debit else TxType.credit
          amount := raw.importe
          balance := raw.saldo
          date := parse_date raw.fecha
          meta := {} })
  else none

/-- Loop body of `parse_transactions` over the raw movement list: each raw
movement is parsed and appended exactly when parsing yields a record. -/
def parse_transactions_list (fetched : Option String) (movs : List RawTx) : List Transaction :=
  movs.filterMap (parse_transaction fetched)

/-- Data object of a month response for an account: each of the two
alternative movement-list keys is present or absent. -/
structure AccountData where
  mapaHistoricos : Option (List RawTx)
  movimientosMesActual : Option (List RawTx)
deriving DecidableEq, Repr

/-- Embedding of `parse_transactions`: select the movement list under
`mapaHistoricos.movimientosHistoricos.movimientos`, else under
`movimientosMesActual.movimientos`; when neither key is present the Python
code raises (the local `movements` is never bound), modelled as `error`. -/
def parse_transactions (fetched : Option String) (d : AccountData) :
    Except String (List Transaction) :=
  match d.mapaHistoricos with
  | some movs => Except.ok (parse_transactions_list fetched movs)
  | none =>
    match d.movimientosMesActual with
    | some movs => Except.ok (parse_transactions_list fetched movs)
    | none => Except.error "NameError: movements"

/-- Meta dictionary of a CardMovement. -/
structure CCMeta where
  tax_return : Option Bool := none
  bank_costs : Option Bool := none
  life_insurance : Option Bool := none
deriving DecidableEq, Repr

/-- Raw credit-card movement JSON object, with the upstream field names. -/
structure RawCCMov where
  tipo : String
  nombreComercio : String
  fecha : RawDate
  importe : ℚ
  moneda : String
  idCupon : String
deriving DecidableEq, Repr

/-- Canonical card movement record built by `parse_cc_movements`. Every
surviving row has its type overwritten to debit or credit by the sign
normalization, so the type is the two-valued `TxType`. -/
structure CardMovement where
  ty : TxType
  description : String
  date : Date
  amount : ℚ
  currency : String
  coupon_id : String
  meta : CCMeta
deriving DecidableEq, Repr

/-- Currency resolution of `parse_cc_movements`: the lowered currency text
is tested for membership in the list ["Dolares", "dolares"] (the first
entry can never match a lowered string) and then against "pesos";
anything else is logged and the row dropped. -/
def resolveCurrency (moneda : String) : Option String :=
  if pyLower moneda = "Dolares" ∨ pyLower moneda = "dolares" then some "USD"
  else if pyLower moneda = "pesos" then some "UYU"
  else none

/-- Body of the `parse_cc_movements` loop for one raw movement: currency
resolution, payment-receipt filtering on the lowered and stripped raw
type, sign normalization (negative raw amount becomes a credit with the
amount negated, otherwise a debit with the amount unchanged), then the
description classification rules. `none` when the row is dropped. -/
def parse_cc_movement (raw : RawCCMov) : Option CardMovement :=
  (resolveCurrency raw.moneda).bind (fun currency_id =>
    if pyStrip (pyLower raw.tipo) = "recibo de pago" then none
    else
      let ty : TxType := if raw.importe < 0 then TxType.credit else TxType.debit
      let amount : ℚ := if raw.importe < 0 then -raw.importe else raw.importe
      let descr : String := cleanWS raw.nombreComercio
      let m0 : CCMeta := {}
      let m1 : CCMeta :=
        if startsWithB descr "REDUC. IVA LEY" ∨ startsWithB descr "DEVOLUCION DE IVA LEY"
        then { m0 with tax_return := some true } else m0
      let m2 : CCMeta :=
        if startsWithB descr "COSTO DE TARJETA"
        then { m1 with bank_costs := some true } else m1
      let m3 : CCMeta :=
        if startsWithB descr "SEGURO DE VIDA SOBRE SALDO"
        then { m2 with life_insurance := some true } else m2
      some { ty := ty, description := descr, date := parse_date raw.fecha,
             amount := amount, currency := currency_id, coupon_id := raw.idCupon,
             meta := m3 })

/-- Loop of `parse_cc_movements` over the raw movement list. -/
def parse_cc_movements_list (movs : List RawCCMov) : List CardMovement :=
  movs.filterMap parse_cc_movement

/-- Data object of a month response for a card, holding the list under
`datosMovs.movimientos`. -/
structure CCData where
  movimientos : List RawCCMov
deriving DecidableEq, Repr

/-- Embedding of `parse_cc_movements` on the decoded month payload. -/
def parse_cc_movements (d : CCData) : List CardMovement :=
  parse_cc_movements_list d.movimientos

/-- Embedding of `get_month_account_details`. The `fetch` parameter is the
outcome of the month request and JSON decoding (`error` = any raised
exception); the parse runs inside the same try block, so its errors are
caught by the same handler, and every failure resolves to the empty
list. -/
def get_month_account_details (fetched : Option String)
    (fetch : Except String AccountData) : List Transaction :=
  match fetch with
  | Except.error _ => []
  | Except.ok d =>
    match parse_transactions fetched d with
    | Except.ok txs => txs
    | Except.error _ => []

/-- Embedding of the gather in `account_detail`: one month fetch outcome
per planned month, results flattened in planning order. -/
def account_detail (fetched : Option String)
    (months : List (Except String AccountData)) : List Transaction :=
  (months.map (get_month_account_details fetched)).flatten

/-- Embedding of `get_month_credit_card`: a failed fetch resolves to the
empty movement list. -/
def get_month_credit_card (fetch : Except String CCData) : List CardMovement :=
  match fetch with
  | Except.error _ => []
  | Except.ok d => parse_cc_movements d

/-- Embedding of the gather in `get_credit_cards` for one card: one month
fetch outcome per planned month, results flattened in planning order. -/
def credit_card_detail (months : List (Except String CCData)) : List CardMovement :=
  (months.map get_month_credit_card).flatten

/-- Account fields the export writer uses for the data rows. -/
structure Account where
  id : String
  currency_id : String
deriving DecidableEq, Repr

/-- Two-decimal fixed-point rendering of an amount, the embedding of
`"{:.2f}".format(amount)`; the exact tie-breaking of the underlying
binary floating-point formatting is abstracted by rounding the rational
to cents. -/
def format2dp (q : ℚ) : String :=
  (if Rat.floor (q * 100 + 1 / 2) < 0 then "-" else "") ++
    toString ((Rat.floor (q * 100 + 1 / 2)).natAbs / 100) ++ "." ++
    (if (Rat.floor (q * 100 + 1 / 2)).natAbs % 100 < 10
     then "0" ++ toString ((Rat.floor (q * 100 + 1 / 2)).natAbs % 100)
     else toString ((Rat.floor (q * 100 + 1 / 2)).natAbs % 100))

/-- Two-digit zero padding, as `strftime` and `isoformat` produce. -/
def pad2 (n : Nat) : String := if n < 10 then "0" ++ toString n else toString n

/-- ISO calendar-date string, the embedding of `date.isoformat()`. -/
def isoDate (d : Date) : String :=
  toString d.year ++ "-" ++ pad2 d.month ++ "-" ++ pad2 d.day

/-- Stringification of an optional boolean cell as the csv writer writes
it: an absent key (None) becomes the empty cell, True becomes "True". -/
def cellOptBool (b : Option Bool) : String :=
  match b with
  | none => ""
  | some true => "True"
  | some false => "False"

/-- Stringification of an optional string cell: absent becomes empty. -/
def cellOptStr (s : Option String) : String := s.getD ""

/-- String the writer emits for the type field. -/
def typeCell (t : TxType) : String :=
  match t with
  | TxType.debit => "debit"
  | TxType.credit => "credit"

/-- Header row of an account export file. -/
def accountHeader : List String :=
  ["account", "currency", "date", "description", "additional_description",
   "type", "debit", "credit", "balance", "debit card purchase", "atm",
   "bank transfer", "tax return", "beneficiary"]

/-- Data row the `save` loop writes for one transaction of one account:
the amount is formatted to two decimals and placed in the debit column
for a debit, in the credit column for a credit, the other left empty. -/
def accountRow (account : Account) (tx : Transaction) : List String :=
  [account.id, account.currency_id, isoDate tx.date, tx.description,
   tx.additional_description, typeCell tx.ty,
   (if tx.ty = TxType.debit then format2dp tx.amount else ""),
   (if tx.ty = TxType.credit then format2dp tx.amount else ""),
   toString tx.balance,
   cellOptBool tx.meta.debit_card_purchase, cellOptBool tx.meta.atm,
   cellOptBool tx.meta.bank_transfer, cellOptBool tx.meta.tax_return,
   cellOptStr tx.meta.beneficiary]

/-- Rows `save` writes to one account's file: the header row followed by
one data row per transaction. -/
def saveAccount (account : Account) (txs : List Transaction) : List (List String) :=
  accountHeader :: txs.map (accountRow account)

/-- Property of a row that exactly one of its debit (index 6) and credit
(index 7) cells is populated, carrying the given non-empty formatted
amount, while the other cell is empty. -/
def exactlyOneAmountCell (row : List String) (amount : String) : Prop :=
  (row.getD 6 "" = amount ∧ amount ≠ "" ∧ row.getD 7 "" = "") ∨
  (row.getD 7 "" = amount ∧ amount ≠ "" ∧ row.getD 6 "" = "")

theorem ruleBeneficiary_pres (f : Option String) (tx : Transaction) :
    (ruleBeneficiary f tx).description = tx.description ∧
    (ruleBeneficiary f tx).ty = tx.ty ∧
    (ruleBeneficiary f tx).amount = tx.amount ∧
    (ruleBeneficiary f tx).meta.atm = tx.meta.atm ∧
    (ruleBeneficiary f tx).meta.bank_costs = tx.meta.bank_costs ∧
    (ruleBeneficiary f tx).meta.bank_transfer = tx.meta.bank_transfer ∧
    (ruleBeneficiary f tx).meta.bank_transfer_from = tx.meta.bank_transfer_from ∧
    (ruleBeneficiary f tx).meta.bank_transfer_to = tx.meta.bank_transfer_to ∧
    (ruleBeneficiary f tx).meta.tax_return = tx.meta.tax_return := by
  unfold ruleBeneficiary
  split <;> exact ⟨rfl, rfl, rfl, rfl, rfl, rfl, rfl, rfl, rfl⟩

theorem ruleCompra_pres (tx : Transaction) :
    (ruleCompra tx).description = tx.description ∧
    (ruleCompra tx).ty = tx.ty ∧
    (ruleCompra tx).amount = tx.amount ∧
    (ruleCompra tx).meta.beneficiary = tx.meta.beneficiary ∧
    (ruleCompra tx).meta.atm = tx.meta.atm ∧
    (ruleCompra tx).meta.bank_costs = tx.meta.bank_costs ∧
    (ruleCompra tx).meta.bank_transfer = tx.meta.bank_transfer ∧
    (ruleCompra tx).meta.bank_transfer_from = tx.meta.bank_transfer_from ∧
    (ruleCompra tx).meta.bank_transfer_to = tx.meta.bank_transfer_to ∧
    (ruleCompra tx).meta.tax_return = tx.meta.tax_return := by
  unfold ruleCompra
  split <;> exact ⟨rfl, rfl, rfl, rfl, rfl, rfl, rfl, rfl, rfl, rfl⟩

theorem ruleRetiro_pres (tx : Transaction) :
    (ruleRetiro tx).ty = tx.ty ∧
    (ruleRetiro tx).amount = tx.amount ∧
    (ruleRetiro tx).meta.beneficiary = tx.meta.beneficiary ∧
    (ruleRetiro tx).meta.bank_costs = tx.meta.bank_costs ∧
    (ruleRetiro tx).meta.bank_transfer = tx.meta.bank_transfer ∧
    (ruleRetiro tx).meta.bank_transfer_from = tx.meta.bank_transfer_from ∧
    (ruleRetiro tx).meta.bank_transfer_to = tx.meta.bank_transfer_to ∧
    (ruleRetiro tx).meta.tax_return = tx.meta.tax_return := by
  unfold ruleRetiro
  split <;> exact ⟨rfl, rfl, rfl, rfl, rfl, rfl, rfl, rfl⟩

theorem ruleBankingCard_pres (tx : Transaction) :
    (ruleBankingCard tx).description = tx.description ∧
    (ruleBankingCard tx).ty = tx.ty ∧
    (ruleBankingCard tx).amount = tx.amount ∧
    (ruleBankingCard tx).meta.beneficiary = tx.meta.beneficiary ∧
    (ruleBankingCard tx).meta.atm = tx.meta.atm ∧
    (ruleBankingCard tx).meta.bank_transfer = tx.meta.bank_transfer ∧
    (ruleBankingCard tx).meta.bank_transfer_from = tx.meta.bank_transfer_from ∧
    (ruleBankingCard tx).meta.bank_transfer_to = tx.meta.bank_transfer_to ∧
    (ruleBankingCard tx).meta.tax_return = tx.meta.tax_return := by
  unfold ruleBankingCard
  split <;> exact ⟨rfl, rfl, rfl, rfl, rfl, rfl, rfl, rfl, rfl⟩

theorem ruleTraspasoDe_pres (tx : Transaction) :
    (ruleTraspasoDe tx).description = tx.description ∧
    (ruleTraspasoDe tx).ty = tx.ty ∧
    (ruleTraspasoDe tx).amount = tx.amount ∧
    (ruleTraspasoDe tx).meta.beneficiary = tx.meta.beneficiary ∧
    (ruleTraspasoDe tx).meta.atm = tx.meta.atm ∧
    (ruleTraspasoDe tx).meta.bank_costs = tx.meta.bank_costs ∧
    (ruleTraspasoDe tx).meta.bank_transfer_to = tx.meta.bank_transfer_to ∧
    (ruleTraspasoDe tx).meta.tax_return = tx.meta.tax_return := by
  unfold ruleTraspasoDe
  split <;> exact ⟨rfl, rfl, rfl, rfl, rfl, rfl, rfl, rfl⟩

theorem ruleTraspasoA_pres (tx : Transaction) :
    (ruleTraspasoA tx).description = tx.description ∧
    (ruleTraspasoA tx).ty = tx.ty ∧
    (ruleTraspasoA tx).amount = tx.amount ∧
    (ruleTraspasoA tx).meta.beneficiary = tx.meta.beneficiary ∧
    (ruleTraspasoA tx).meta.atm = tx.meta.atm ∧
    (ruleTraspasoA tx).meta.bank_costs = tx.meta.bank_costs ∧
    (ruleTraspasoA tx).meta.bank_transfer_from = tx.meta.bank_transfer_from ∧
    (ruleTraspasoA tx).meta.tax_return = tx.meta.tax_return := by
  unfold ruleTraspasoA
  split <;> exact ⟨rfl, rfl, rfl, rfl, rfl, rfl, rfl, rfl⟩

theorem ruleRediva_pres (tx : Transaction) :
    (ruleRediva tx).description = tx.description ∧
    (ruleRediva tx).ty = tx.ty ∧
    (ruleRediva tx).amount = tx.amount ∧
    (ruleRediva tx).meta.beneficiary = tx.meta.beneficiary ∧
    (ruleRediva tx).meta.atm = tx.meta.atm ∧
    (ruleRediva tx).meta.bank_costs = tx.meta.bank_costs ∧
    (ruleRediva tx).meta.bank_transfer = tx.meta.bank_transfer ∧
    (ruleRediva tx).meta.bank_transfer_from = tx.meta.bank_transfer_from ∧
    (ruleRediva tx).meta.bank_transfer_to = tx.meta.bank_transfer_to := by
  unfold ruleRediva
  split <;> exact ⟨rfl, rfl, rfl, rfl, rfl, rfl, rfl, rfl, rfl⟩

theorem ruleRetiro_fire (tx : Transaction)
    (h : startsWithB tx.description "RETIRO " = true) :
    ruleRetiro tx =
      { tx with description := "RETIRO BANRED", meta := { tx.meta with atm := some true } } := by
  unfold ruleRetiro
  simp [h]

theorem ruleBeneficiary_fire (f : Option String) (tx : Transaction)
    (h : containsSub tx.description "DEB. CAMBIOSS" = true) :
    ruleBeneficiary f tx =
      { tx with meta := { tx.meta with beneficiary := some (get_transaction_details f) } } := by
  unfold ruleBeneficiary
  simp [h]

theorem ruleBankingCard_skip (tx : Transaction)
    (h : startsWithB tx.description "DEBITO BANKING CARD" = false) :
    ruleBankingCard tx = tx := by
  unfold ruleBankingCard
  simp [h]

theorem ruleTraspasoDe_skip (tx : Transaction)
    (h : startsWithB tx.description "TRASPASO DE" = false) :
    ruleTraspasoDe tx = tx := by
  unfold ruleTraspasoDe
  simp [h]

theorem ruleTraspasoA_skip (tx : Transaction)
    (h : startsWithB tx.description "TRASPASO A" = false) :
    ruleTraspasoA tx = tx := by
  unfold ruleTraspasoA
  simp [h]

theorem ruleRediva_skip (tx : Transaction)
    (h : startsWithB tx.description "REDIVA 1921" = false) :
    ruleRediva tx = tx := by
  unfold ruleRediva
  simp [h]

theorem lastFourRules_id (tx : Transaction) (h : tx.description = "RETIRO BANRED") :
    ruleRediva (ruleTraspasoA (ruleTraspasoDe (ruleBankingCard tx))) = tx := by
  have h1 : ruleBankingCard tx = tx := ruleBankingCard_skip tx (by rw [h]; decide)
  rw [h1]
  have h2 : ruleTraspasoDe tx = tx := ruleTraspasoDe_skip tx (by rw [h]; decide)
  rw [h2]
  have h3 : ruleTraspasoA tx = tx := ruleTraspasoA_skip tx (by rw [h]; decide)
  rw [h3]
  exact ruleRediva_skip tx (by rw [h]; decide)

theorem applyRules_retiro (f : Option String) (tx : Transaction)
    (hd : startsWithB tx.description "RETIRO " = true) :
    (applyRules f tx).description = "RETIRO BANRED" ∧
    (applyRules f tx).meta.atm = some true ∧
    (applyRules f tx).meta.bank_costs = tx.meta.bank_costs ∧
    (applyRules f tx).meta.bank_transfer = tx.meta.bank_transfer ∧
    (applyRules f tx).meta.bank_transfer_from = tx.meta.bank_transfer_from ∧
    (applyRules f tx).meta.bank_transfer_to = tx.meta.bank_transfer_to ∧
    (applyRules f tx).meta.tax_return = tx.meta.tax_return := by
  obtain ⟨b1, -, -, -, b5, b6, b7, b8, b9⟩ := ruleBeneficiary_pres f tx
  obtain ⟨c1, -, -, -, -, c6, c7, c8, c9, c10⟩ := ruleCompra_pres (ruleBeneficiary f tx)
  have hd2 : startsWithB (ruleCompra (ruleBeneficiary f tx)).description "RETIRO " = true := by
    rw [c1, b1]; exact hd
  have hr := ruleRetiro_fire _ hd2
  unfold applyRules
  rw [hr, lastFourRules_id _ rfl]
  refine ⟨rfl, rfl, ?_, ?_, ?_, ?_, ?_⟩
  · exact c6.trans b5
  · exact c7.trans b6
  · exact c8.trans b7
  · exact c9.trans b8
  · exact c10.trans b9

theorem applyRules_base (f : Option String) (tx : Transaction) :
    (applyRules f tx).ty = tx.ty ∧ (applyRules f tx).amount = tx.amount := by
  obtain ⟨-, b2, b3, -, -, -, -, -, -⟩ := ruleBeneficiary_pres f tx
  obtain ⟨-, c2, c3, -, -, -, -, -, -, -⟩ := ruleCompra_pres (ruleBeneficiary f tx)
  obtain ⟨r1, r2, -, -, -, -, -, -⟩ :=
    ruleRetiro_pres (ruleCompra (ruleBeneficiary f tx))
  obtain ⟨-, k2, k3, -, -, -, -, -, -⟩ :=
    ruleBankingCard_pres (ruleRetiro (ruleCompra (ruleBeneficiary f tx)))
  obtain ⟨-, d2, d3, -, -, -, -, -⟩ :=
    ruleTraspasoDe_pres (ruleBankingCard (ruleRetiro (ruleCompra (ruleBeneficiary f tx))))
  obtain ⟨-, a2, a3, -, -, -, -, -⟩ :=
    ruleTraspasoA_pres
      (ruleTraspasoDe (ruleBankingCard (ruleRetiro (ruleCompra (ruleBeneficiary f tx)))))
  obtain ⟨-, e2, e3, -, -, -, -, -, -⟩ :=
    ruleRediva_pres
      (ruleTraspasoA (ruleTraspasoDe (ruleBankingCard (ruleRetiro
        (ruleCompra (ruleBeneficiary f tx))))))
  unfold applyRules
  constructor
  · exact e2.trans (a2.trans (d2.trans (k2.trans (r1.trans (c2.trans b2)))))
  · exact e3.trans (a3.trans (d3.trans (k3.trans (r2.trans (c3.trans b3)))))

theorem applyRules_beneficiary_field (f : Option String) (tx : Transaction) :
    (applyRules f tx).meta.beneficiary = (ruleBeneficiary f tx).meta.beneficiary := by
  obtain ⟨-, -, -, c4, -, -, -, -, -, -⟩ := ruleCompra_pres (ruleBeneficiary f tx)
  obtain ⟨-, -, r3, -, -, -, -, -⟩ :=
    ruleRetiro_pres (ruleCompra (ruleBeneficiary f tx))
  obtain ⟨-, -, -, k4, -, -, -, -, -⟩ :=
    ruleBankingCard_pres (ruleRetiro (ruleCompra (ruleBeneficiary f tx)))
  obtain ⟨-, -, -, d4, -, -, -, -⟩ :=
    ruleTraspasoDe_pres (ruleBankingCard (ruleRetiro (ruleCompra (ruleBeneficiary f tx))))
  obtain ⟨-, -, -, a4, -, -, -, -⟩ :=
    ruleTraspasoA_pres
      (ruleTraspasoDe (ruleBankingCard (ruleRetiro (ruleCompra (ruleBeneficiary f tx)))))
  obtain ⟨-, -, -, e4, -, -, -, -, -⟩ :=
    ruleRediva_pres
      (ruleTraspasoA (ruleTraspasoDe (ruleBankingCard (ruleRetiro
        (ruleCompra (ruleBeneficiary f tx))))))
  unfold applyRules
  exact e4.trans (a4.trans (d4.trans (k4.trans (r3.trans c4))))

theorem append_dot_ne_empty (a b c : String) : a ++ b ++ "." ++ c ≠ "" := by
  intro h
  have h2 := congrArg String.length h
  rw [String.length_append, String.length_append, String.length_append] at h2
  have hd : String.length "." = 1 := rfl
  have he : String.length "" = 0 := rfl
  omega

theorem format2dp_ne_empty (q : ℚ) : format2dp q ≠ "" := by
  unfold format2dp
  exact append_dot_ne_empty _ _ _

theorem accountRow_exactlyOne (account : Account) (tx : Transaction) :
    exactlyOneAmountCell (accountRow account tx) (format2dp tx.amount) := by
  rcases h : tx.ty with _ | _
  · exact Or.inl ⟨by simp [accountRow, h], format2dp_ne_empty _, by simp [accountRow, h]⟩
  · exact Or.inr ⟨by simp [accountRow, h], format2dp_ne_empty _, by simp [accountRow, h]⟩

/-- C2 (amended): every raw account movement accepted by
`parse_transaction` (tipo "D" or "C") yields a Transaction whose amount
is the raw importe carried over unchanged — hence non-negative whenever
the raw amount is non-negative, which the code itself does not enforce —
with the debit/credit classification determined solely by the tipo field,
and in the exported row exactly one of the debit/credit columns carries
the formatted amount while the other is empty. -/
theorem C2_amount_export (f : Option String) (raw : RawTx) (account : Account)
    (h : raw.tipo = "D" ∨ raw.tipo = "C") :
    ∃ tx, parse_transaction f raw = some tx ∧
      tx.amount = raw.importe ∧
      (0 ≤ raw.importe → 0 ≤ tx.amount) ∧
      (tx.ty = TxType.debit ↔ raw.tipo = "D") ∧
      exactlyOneAmountCell (accountRow account tx) (format2dp tx.amount) := by
  unfold parse_transaction
  rw [if_pos h]
  refine ⟨_, rfl, ?_, ?_, ?_, accountRow_exactlyOne account _⟩
  · exact (applyRules_base f _).2
  · intro h0
    have ha := (applyRules_base f
      { description := cleanWS raw.descripcion
        additional_description := cleanWS raw.descripcionAdicional
        ty := if raw.tipo = "D" then TxType.debit else TxType.credit
        amount := raw.importe
        balance := raw.saldo
        date := parse_date raw.fecha
        meta := {} }).2
    rw [ha]
    exact h0
  · have ht := (applyRules_base f
      { description := cleanWS raw.descripcion
        additional_description := cleanWS raw.descripcionAdicional
        ty := if raw.tipo = "D" then TxType.debit else TxType.credit
        amount := raw.importe
        balance := raw.saldo
        date := parse_date raw.fecha
        meta := {} }).1
    rw [ht]
    by_cases hD : raw.tipo = "D" <;> simp [hD]

/-- C2 counterexample: a debit movement whose raw importe is -1 is
accepted and produces a transaction whose amount is -1, which is
negative: `parse_transaction` copies the raw amount unchanged and never
normalizes its sign. -/
theorem C2_counterexample :
    (parse_transaction none
      { tipo := "D", descripcion := "PAGO", descripcionAdicional := "",
        importe := -1, saldo := 0,
        fecha := { year := 2022, monthOfYear := 1, dayOfMonth := 3 } }).map
      Transaction.amount = some (-1) ∧ ((-1 : ℚ) < 0) :=
  ⟨rfl, by decide⟩

/-- Concrete raw debit movement used by the C2 witness. -/
def rawDebit5 : RawTx :=
  { tipo := "D", descripcion := "COMPRA SUPER", descripcionAdicional := "",
    importe := 5, saldo := 100,
    fecha := { year := 2022, monthOfYear := 2, dayOfMonth := 3 } }

/-- Concrete account used by witnesses. -/
def acct1 : Account := { id := "123456", currency_id := "UYU" }

/-- C2 witness: the amended theorem applied to a concrete debit movement
with positive raw amount. -/
theorem C2_witness :
    ∃ tx, parse_transaction none rawDebit5 = some tx ∧
      tx.amount = rawDebit5.importe ∧
      (0 ≤ rawDebit5.importe → 0 ≤ tx.amount) ∧
      (tx.ty = TxType.debit ↔ rawDebit5.tipo = "D") ∧
      exactlyOneAmountCell (accountRow acct1 tx) (format2dp tx.amount) :=
  C2_amount_export none rawDebit5 acct1 (Or.inl rfl)

/-- C6: every accepted raw movement whose cleaned description starts with
"RETIRO " yields a transaction whose description is the fixed literal
"RETIRO BANRED" — the original suffix is discarded — and whose meta
contains atm = true. -/
theorem C6_retiro (f : Option String) (raw : RawTx)
    (h : raw.tipo = "D" ∨ raw.tipo = "C")
    (hd : startsWithB (cleanWS raw.descripcion) "RETIRO " = true) :
    ∃ tx, parse_transaction f raw = some tx ∧
      tx.description = "RETIRO BANRED" ∧ tx.meta.atm = some true := by
  unfold parse_transaction
  rw [if_pos h]
  obtain ⟨d1, d2, -, -, -, -, -⟩ := applyRules_retiro f
    { description := cleanWS raw.descripcion
      additional_description := cleanWS raw.descripcionAdicional
      ty := if raw.tipo = "D" then TxType.debit else TxType.credit
      amount := raw.importe
      balance := raw.saldo
      date := parse_date raw.fecha
      meta := {} } hd
  exact ⟨_, rfl, d1, d2⟩

/-- C6 witness: a credit movement described "RETIRO  CAJERO 123" (note
the doubled space collapsed by cleaning) is rewritten to the ATM literal
with the atm flag set. -/
theorem C6_witness :
    ∃ tx, parse_transaction none
      { tipo := "C", descripcion := "RETIRO  CAJERO 123",
        descripcionAdicional := "", importe := 3, saldo := 7,
        fecha := { year := 2021, monthOfYear := 6, dayOfMonth := 9 } } = some tx ∧
      tx.description = "RETIRO BANRED" ∧ tx.meta.atm = some true :=
  C6_retiro none _ (Or.inr rfl) (by decide)

/-- C10: for an accepted movement whose cleaned description starts with
"RETIRO ", the description is rewritten to the ATM literal before the
later prefix rules are evaluated, so the meta never also contains
bank_costs, bank_transfer, bank_transfer_from, bank_transfer_to or
tax_return. -/
theorem C10_retiro_only_atm (f : Option String) (raw : RawTx)
    (h : raw.tipo = "D" ∨ raw.tipo = "C")
    (hd : startsWithB (cleanWS raw.descripcion) "RETIRO " = true) :
    ∃ tx, parse_transaction f raw = some tx ∧
      tx.meta.atm = some true ∧
      tx.meta.bank_costs = none ∧ tx.meta.bank_transfer = none ∧
      tx.meta.bank_transfer_from = none ∧ tx.meta.bank_transfer_to = none ∧
      tx.meta.tax_return = none := by
  unfold parse_transaction
  rw [if_pos h]
  obtain ⟨-, d2, d3, d4, d5, d6, d7⟩ := applyRules_retiro f
    { description := cleanWS raw.descripcion
      additional_description := cleanWS raw.descripcionAdicional
      ty := if raw.tipo = "D" then TxType.debit else TxType.credit
      amount := raw.importe
      balance := raw.saldo
      date := parse_date raw.fecha
      meta := {} } hd
  exact ⟨_, rfl, d2, d3, d4, d5, d6, d7⟩

/-- C10 witness: the ATM rewrite leaves every transfer/cost/tax flag
absent even for a suffix that mentions a transfer-looking text. -/
theorem C10_witness :
    ∃ tx, parse_transaction none
      { tipo := "D", descripcion := "RETIRO TRASPASO DE 123",
        descripcionAdicional := "", importe := 4, saldo := 9,
        fecha := { year := 2021, monthOfYear := 6, dayOfMonth := 9 } } = some tx ∧
      tx.meta.atm = some true ∧
      tx.meta.bank_costs = none ∧ tx.meta.bank_transfer = none ∧
      tx.meta.bank_transfer_from = none ∧ tx.meta.bank_transfer_to = none ∧
      tx.meta.tax_return = none :=
  C10_retiro_only_atm none _ (Or.inl rfl) (by decide)

/-- C7: a raw movement whose tipo is neither "D" nor "C" yields no
Transaction (the code logs a warning and returns None), and the batch
parse of the surrounding movements is unaffected; `parse_transaction` is
a pure function of its input, so re-normalizing the same input always
drops it again. -/
theorem C7_unknown_tipo (f : Option String) (raw : RawTx) (pre post : List RawTx)
    (h1 : raw.tipo ≠ "D") (h2 : raw.tipo ≠ "C") :
    parse_transaction f raw = none ∧
    parse_transactions_list f (pre ++ raw :: post) =
      parse_transactions_list f pre ++ parse_transactions_list f post := by
  have hn : parse_transaction f raw = none := by
    unfold parse_transaction
    rw [if_neg]
    rintro (hc | hc)
    · exact h1 hc
    · exact h2 hc
  refine ⟨hn, ?_⟩
  unfold parse_transactions_list
  rw [List.filterMap_append]
  simp [List.filterMap_cons, hn]

/-- C7 witness: the movement with tipo "X" is dropped from the batch while
its neighbours are kept. -/
theorem C7_witness :
    parse_transaction none
      { tipo := "X", descripcion := "RARO", descripcionAdicional := "",
        importe := 2, saldo := 3,
        fecha := { year := 2020, monthOfYear := 1, dayOfMonth := 2 } } = none ∧
    parse_transactions_list none
      ([rawDebit5] ++
        { tipo := "X", descripcion := "RARO", descripcionAdicional := "",
          importe := 2, saldo := 3,
          fecha := { year := 2020, monthOfYear := 1, dayOfMonth := 2 } } :: []) =
      parse_transactions_list none [rawDebit5] ++ parse_transactions_list none [] :=
  C7_unknown_tipo none _ [rawDebit5] [] (by decide) (by decide)

/-- C3 (amended): when the beneficiary string of the detail payload has at
least two whitespace-delimited tokens (the split has length 2), the detail
parser returns it with its first token stripped; with fewer tokens the
code returns the whole single token instead, or raises; and any failure of
the detail fetch makes `get_transaction_details` return the empty string
while the transaction is still emitted, its beneficiary set to "". -/
theorem C3_beneficiary (s : String) (raw : RawTx)
    (h2 : (pySplitNone1 s).length = 2)
    (ht : raw.tipo = "D" ∨ raw.tipo = "C")
    (hdeb : containsSub (cleanWS raw.descripcion) "DEB. CAMBIOSS" = true) :
    parse_transaction_details s = some (spec_beneficiary_stripped s) ∧
    get_transaction_details none = "" ∧
    (∃ tx, parse_transaction none raw = some tx ∧ tx.meta.beneficiary = some "") := by
  refine ⟨?_, rfl, ?_⟩
  · unfold pySplitNone1 at h2
    unfold parse_transaction_details pySplitNone1
    split_ifs at h2 ⊢ <;> simp_all [spec_beneficiary_stripped]
  · unfold parse_transaction
    rw [if_pos ht]
    refine ⟨_, rfl, ?_⟩
    rw [applyRules_beneficiary_field none
      { description := cleanWS raw.descripcion
        additional_description := cleanWS raw.descripcionAdicional
        ty := if raw.tipo = "D" then TxType.debit else TxType.credit
        amount := raw.importe
        balance := raw.saldo
        date := parse_date raw.fecha
        meta := {} },
      ruleBeneficiary_fire none
      { description := cleanWS raw.descripcion
        additional_description := cleanWS raw.descripcionAdicional
        ty := if raw.tipo = "D" then TxType.debit else TxType.credit
        amount := raw.importe
        balance := raw.saldo
        date := parse_date raw.fecha
        meta := {} } hdeb]
    rfl

/-- C3 counterexample: a single-token beneficiary "ABC" is returned whole
by the detail parser, not with its first token stripped off, which would
leave the empty string. -/
theorem C3_counterexample :
    parse_transaction_details "ABC" = some "ABC" ∧
    spec_beneficiary_stripped "ABC" = "" ∧ ("ABC" : String) ≠ "" :=
  ⟨rfl, rfl, by decide⟩

/-- C3 witness: the amended theorem applied to the two-token beneficiary
"COD JUAN PEREZ" and a movement whose description contains
"DEB. CAMBIOSS" with a failing detail fetch. -/
theorem C3_witness :
    parse_transaction_details "COD JUAN PEREZ" =
      some (spec_beneficiary_stripped "COD JUAN PEREZ") ∧
    get_transaction_details none = "" ∧
    (∃ tx, parse_transaction none
      { tipo := "D", descripcion := "PAGO DEB. CAMBIOSS 99",
        descripcionAdicional := "", importe := 8, saldo := 1,
        fecha := { year := 2021, monthOfYear := 2, dayOfMonth := 5 } } = some tx ∧
      tx.meta.beneficiary = some "") :=
  C3_beneficiary "COD JUAN PEREZ" _ (by decide) (Or.inl rfl) (by decide)

/-- C4: for a raw card movement with recognized currency and a
lowered/stripped type different from the payment-receipt literal, the
normalized movement has a non-negative amount, its type is credit exactly
when the raw amount is negative, and otherwise the type is debit and the
amount is carried over unchanged. -/
theorem C4_sign_normalization (raw : RawCCMov)
    (hc : (resolveCurrency raw.moneda).isSome = true)
    (hr : pyStrip (pyLower raw.tipo) ≠ "recibo de pago") :
    ∃ mov, parse_cc_movement raw = some mov ∧
      0 ≤ mov.amount ∧
      (mov.ty = TxType.credit ↔ raw.importe < 0) ∧
      (¬ raw.importe < 0 → mov.ty = TxType.debit ∧ mov.amount = raw.importe) := by
  obtain ⟨c, hc2⟩ := Option.isSome_iff_exists.mp hc
  unfold parse_cc_movement
  rw [hc2, Option.some_bind, if_neg hr]
  by_cases hneg : raw.importe < 0
  · refine ⟨_, rfl, ?_, ?_, ?_⟩
    · simp only [if_pos hneg]
      linarith
    · simp [hneg]
    · intro hcontra
      exact absurd hneg hcontra
  · refine ⟨_, rfl, ?_, ?_, ?_⟩
    · simp only [if_neg hneg]
      linarith [not_lt.mp hneg]
    · simp [hneg]
    · intro hge
      constructor
      · simp [hneg]
      · simp [hneg]

/-- Concrete raw card movement used by the C4 witness. -/
def rawCC50 : RawCCMov :=
  { tipo := "COMPRA", nombreComercio := "SHOP",
    fecha := { year := 2022, monthOfYear := 3, dayOfMonth := 4 },
    importe := -50, moneda := "Dolares", idCupon := "c1" }

/-- C4 witness: a dollar purchase with raw amount -50 becomes a credit of
non-negative amount; applied through the theorem at the concrete movement. -/
theorem C4_witness :
    ∃ mov, parse_cc_movement rawCC50 = some mov ∧
      0 ≤ mov.amount ∧
      (mov.ty = TxType.credit ↔ rawCC50.importe < 0) ∧
      (¬ rawCC50.importe < 0 → mov.ty = TxType.debit ∧ mov.amount = rawCC50.importe) :=
  C4_sign_normalization rawCC50 (by decide) (by decide)

/-- C5: a raw card movement whose lowered and stripped type equals the
payment-receipt literal "recibo de pago" is filtered out entirely, for
any amount and currency: it produces no CardMovement and never appears in
the normalized output of the surrounding batch. -/
theorem C5_receipt_filtered (raw : RawCCMov) (pre post : List RawCCMov)
    (h : pyStrip (pyLower raw.tipo) = "recibo de pago") :
    parse_cc_movement raw = none ∧
    parse_cc_movements_list (pre ++ raw :: post) =
      parse_cc_movements_list pre ++ parse_cc_movements_list post := by
  have hn : parse_cc_movement raw = none := by
    unfold parse_cc_movement
    cases hc : resolveCurrency raw.moneda with
    | none => rfl
    | some c => rw [Option.some_bind, if_pos h]
  refine ⟨hn, ?_⟩
  unfold parse_cc_movements_list
  rw [List.filterMap_append]
  simp [List.filterMap_cons, hn]

/-- C5 witness: a peso card-bill payment row of raw type
"Recibo de Pago " (mixed case, trailing space) disappears from the
normalized batch. -/
theorem C5_witness :
    parse_cc_movement
      { tipo := "Recibo de Pago ", nombreComercio := "PAGO",
        fecha := { year := 2022, monthOfYear := 5, dayOfMonth := 6 },
        importe := 100, moneda := "Pesos", idCupon := "c2" } = none ∧
    parse_cc_movements_list
      ([] ++
        { tipo := "Recibo de Pago ", nombreComercio := "PAGO",
          fecha := { year := 2022, monthOfYear := 5, dayOfMonth := 6 },
          importe := 100, moneda := "Pesos", idCupon := "c2" } :: []) =
      parse_cc_movements_list [] ++ parse_cc_movements_list [] :=
  C5_receipt_filtered _ [] [] (by decide)

/-- C8: a failure of a single month's fetch-and-parse call is resolved to
the empty result at that call's boundary, and the flattened gather of the
other months of the same entity is unaffected; the gather is a total
function, so it always completes. Stated for both the account and the
card orchestrators. -/
theorem C8_month_isolation (f : Option String) (e e2 : String)
    (pre post : List (Except String AccountData))
    (cpre cpost : List (Except String CCData)) :
    get_month_account_details f (Except.error e) = [] ∧
    account_detail f (pre ++ Except.error e :: post) =
      account_detail f pre ++ account_detail f post ∧
    get_month_credit_card (Except.error e2) = [] ∧
    credit_card_detail (cpre ++ Except.error e2 :: cpost) =
      credit_card_detail cpre ++ credit_card_detail cpost := by
  refine ⟨rfl, ?_, rfl, ?_⟩
  · unfold account_detail
    rw [List.map_append, List.map_cons, List.flatten_append, List.flatten_cons]
    rfl
  · unfold credit_card_detail
    rw [List.map_append, List.map_cons, List.flatten_append, List.flatten_cons]
    rfl

/-- C9: for any account with N normalized transactions, `save` writes
exactly N data rows plus one header row to the account's file, and in
each data row exactly one of the debit and credit columns is non-empty,
holding the two-decimal amount, while the other is empty. -/
theorem C9_save_rows (account : Account) (txs : List Transaction) :
    (saveAccount account txs).length = txs.length + 1 ∧
    ∀ tx ∈ txs, exactlyOneAmountCell (accountRow account tx) (format2dp tx.amount) := by
  constructor
  · simp [saveAccount]
  · intro tx _
    exact accountRow_exactlyOne account tx

/-- Concrete normalized transaction used by the C9 witness. -/
def txSample : Transaction :=
  { description := "COMPRA SUPERMERCADO", additional_description := "",
    ty := TxType.debit, amount := 120, balance := 900,
    date := { year := 2022, month := 2, day := 3 }, meta := {} }

/-- C9 witness: the theorem applied to a one-transaction account file,
with the membership hypothesis discharged at the concrete row. -/
theorem C9_witness :
    (saveAccount acct1 [txSample]).length = [txSample].length + 1 ∧
    exactlyOneAmountCell (accountRow acct1 txSample) (format2dp txSample.amount) :=
  ⟨(C9_save_rows acct1 [txSample]).1,
    (C9_save_rows acct1 [txSample]).2 txSample (List.mem_singleton.mpr rfl)⟩

end Itau
